import Mathlib

/-!
Shallow embedding of the face-detection-app session controller
(RedDotz20/face-detection-app, `src/App.jsx`, primary variant) together with
the reference-gallery builder of the primary variant and of the second
variant found in the same file.

Modelling conventions:
* React `useState` setters are modelled as immediate updates of the current
  state record; each event handler is one commit, and the effects it
  triggers run inside the same transition.
* Asynchronous closures capture render snapshots: every in-flight
  `loadModels` invocation carries the `isVideoOn` it read and the
  `isVideoInitialized` captured by the `startFaceDetection` instance it
  closes over (`useCallback` deps `[isVideoOn, startFaceDetection]` and
  `[isVideoInitialized]`, App.jsx:91, 111); the `toggleVideo` continuation
  carries its click-render `areModelsLoaded` and `isVideoInitialized`.
  Refs are not snapshots: `videoRef.current` / `canvasRef.current` are read
  live, and are non-null exactly when the video view is rendered — no error
  shown, models loaded, video on (App.jsx:221-236, 244-261), the
  `videoMounted` predicate below.
* The `useEffect` on `[isVideoOn]` (cleanup `clearInterval` + `stopVideo`,
  then acquire or release) and the `useEffect` on `[loadModels]`
  (App.jsx:113-115), which re-runs `loadModels` whenever `isVideoOn` or
  `isVideoInitialized` changes, are folded into every transition that
  changes those values. The duplicate `initializeVideo` call (effect plus
  the one `toggleVideo` awaits) is coalesced into one acquisition.
* Each remaining asynchronous resumption point is an event of `Ev`, so
  arbitrary interleavings of the asynchronous completions are traces over
  `Ev`. Descriptors (`Float32Array`) are opaque `Nat` ids; timers are
  `Nat` ids, with the set of live (not yet cleared) timers tracked in
  `activeTimers` and `detectionIntervalRef.current` in `intervalRef`.
* The `labels` list is imported from `./data/labels`, a file not present in
  the sources; everything is therefore parameterised by `labels`.
-/

/-- Result of `faceapi.fetchImage` + `detectSingleFace().withFaceLandmarks()
.withFaceDescriptor()` for one reference image: the fetch or detection threw,
or the detection found no face (the library returns `undefined`), or it
produced a descriptor. -/
inductive Outcome where
  | err (msg : String)
  | noFace
  | ok (d : Nat)
deriving DecidableEq

/-- Accumulator of the per-label image loop of `getLabeledFaceDescriptions`:
descriptors pushed so far, warnings emitted by the per-image `catch`, and the
indices of the images whose fetch was attempted. -/
structure LoopLog where
  descriptors : List Nat
  warnings : List String
  attempts : List Nat
deriving DecidableEq

/-- The `console.warn` message of the per-image `catch` in the primary
`getLabeledFaceDescriptions` (template literal written as concatenation). -/
def warnMsg (i : Nat) (label : String) (m : String) : String :=
  "Failed to process image " ++ toString i ++ " for label " ++ label ++ ": " ++ m

/-- One iteration of the primary variant's image loop: fetch image `i`
(recorded in `attempts`), then on a thrown error warn and continue, on a
null detection continue silently, and on success push the descriptor. -/
def processImage (fd : String → Nat → Outcome) (label : String)
    (acc : LoopLog) (i : Nat) : LoopLog :=
  let acc := { acc with attempts := acc.attempts ++ [i] }
  match fd label i with
  | .err m => { acc with warnings := acc.warnings ++ [warnMsg i label m] }
  | .noFace => acc
  | .ok d => { acc with descriptors := acc.descriptors ++ [d] }

/-- The primary variant's per-label loop `for (let i = 0; i < bound; i++)`.
At the call site the bound is the total label count. -/
def processLabel (fd : String → Nat → Outcome) (bound : Nat)
    (label : String) : LoopLog :=
  (List.range bound).foldl (processImage fd label) ⟨[], [], []⟩

/-- Primary `getLabeledFaceDescriptions` (App.jsx lines 153-195): for each
label run the image loop with bound `labels.length`, and push a labelled
descriptor set only when at least one descriptor succeeded. The outer
`try`/`catch` is unreachable because every per-image failure is caught
inside the loop, so the function is total. -/
def getLabeledFaceDescriptions (labels : List String)
    (fd : String → Nat → Outcome) : List (String × List Nat) :=
  labels.filterMap fun label =>
    let log := processLabel fd labels.length label
    if log.descriptors.length > 0 then some (label, log.descriptors) else none

/-- All `console.warn` output of one primary gallery build, in label order. -/
def galleryWarnings (labels : List String)
    (fd : String → Nat → Outcome) : List String :=
  (labels.map fun label => (processLabel fd labels.length label).warnings).flatten

/-- Per-label loop of the second variant (App.jsx lines 421-450): no
per-image `try`/`catch`, so a thrown fetch/detection rejects the label's
promise, and a null detection makes `detections.descriptor` throw a
`TypeError`; either aborts with an error. -/
def processLabelB (fd : String → Nat → Outcome) (label : String) :
    List Nat → Except String (List Nat)
  | [] => .ok []
  | i :: rest =>
    match fd label i with
    | .err m => .error m
    | .noFace => .error "TypeError: cannot read descriptor of undefined"
    | .ok d => (processLabelB fd label rest).map (d :: ·)

/-- `Promise.all` over the labels of the second variant: rejects as soon as
any label's loop rejects (rejection order modelled as label order),
otherwise collects the labels whose descriptor list is non-empty. -/
def buildB (fd : String → Nat → Outcome) (bound : Nat) :
    List String → Except String (List (String × List Nat))
  | [] => .ok []
  | label :: rest => do
    let ds ← processLabelB fd label (List.range bound)
    let r ← buildB fd bound rest
    if ds.length > 0 then pure ((label, ds) :: r) else pure r

/-- Second-variant `getLabeledFaceDescriptions` (App.jsx lines 421-450):
the per-label image bound is again the total label count; any per-image
failure aborts the whole gallery build. -/
def getLabeledFaceDescriptionsB (labels : List String)
    (fd : String → Nat → Outcome) : Except String (List (String × List Nat)) :=
  buildB fd labels.length labels

/-- Snapshot captured by one `loadModels` invocation at its creation
render: the `isVideoOn` it reads at App.jsx:102, and the
`isVideoInitialized` captured by the `startFaceDetection` instance it
closes over (App.jsx:45). -/
structure LoadSnap where
  capturedIsVideoOn : Bool
  capturedIsVideoInitialized : Bool
deriving DecidableEq

/-- Snapshot captured by one `toggleVideo` invocation at its click render:
the `areModelsLoaded` it reads at App.jsx:205, and the
`isVideoInitialized` captured by the `startFaceDetection` instance it
closes over (App.jsx:45). -/
structure ToggleSnap where
  capturedAreModelsLoaded : Bool
  capturedIsVideoInitialized : Bool
deriving DecidableEq

/-- Session state of the primary `App` component: the five `useState`
slots, the acquired streams (each a list of per-track stopped flags) with
the index currently attached to `videoRef.current.srcObject`, the live
timers and the `detectionIntervalRef` value, the in-flight asynchronous
work with its captured snapshots, and the console / canvas output logs. -/
structure AppState where
  isVideoOn : Bool
  isVideoInitialized : Bool
  areModelsLoaded : Bool
  error : Option String
  isLoading : Bool
  streams : List (List Bool)
  srcObject : Option Nat
  activeTimers : List Nat
  intervalRef : Option Nat
  nextTimerId : Nat
  pendingInit : Bool
  awaitingMetadata : Bool
  toggleSnap : Option ToggleSnap
  toggleReady : Option ToggleSnap
  pendingLoads : List LoadSnap
  pendingGallery : Nat
  console : List String
  canvasOps : Nat
deriving DecidableEq

/-- Whether the video and canvas elements are mounted, i.e. whether the
live reads `videoRef.current` / `canvasRef.current` are non-null: the
error screen replaces the whole view (App.jsx:221-236), and the video view
is rendered only under `areModelsLoaded` and `isVideoOn`
(App.jsx:244-261). -/
def videoMounted (s : AppState) : Bool :=
  s.areModelsLoaded && s.isVideoOn && s.error.isNone

/-- `clearInterval(ref.current)`: cancels the referenced timer if it is
live; a `null` reference or an already-cleared id is a no-op. -/
def clearTimer (timers : List Nat) (r : Option Nat) : List Nat :=
  match r with
  | none => timers
  | some id => timers.filter (· ≠ id)

/-- `track.stop()` on every track of stream `i`. -/
def stopTracks (streams : List (List Bool)) (i : Nat) : List (List Bool) :=
  streams.set i ((streams.getD i []).map fun _ => true)

/-- `stopVideo` (App.jsx lines 143-151): if a stream is attached, stop all
its tracks and detach it; then unconditionally clear the readiness flag and
`clearInterval(detectionIntervalRef.current)` (the ref itself is not
nulled). -/
def stopVideo (s : AppState) : AppState :=
  let s1 :=
    match s.srcObject with
    | some i => { s with streams := stopTracks s.streams i, srcObject := none }
    | none => s
  { s1 with
    isVideoInitialized := false
    activeTimers := clearTimer s1.activeTimers s1.intervalRef }

/-- One new `loadModels` invocation enters flight, capturing the current
render values (the `[loadModels]` effect body, App.jsx:113-115, fired at
mount and re-fired whenever `isVideoOn` or `isVideoInitialized` changes,
and the Retry button); `setIsLoading(true)` runs synchronously
(App.jsx:95). -/
def spawnLoad (s : AppState) : AppState :=
  { s with
    pendingLoads := s.pendingLoads ++ [⟨s.isVideoOn, s.isVideoInitialized⟩]
    isLoading := true }

/-- Synchronous head of one `startFaceDetection` invocation (App.jsx
lines 44-45): return unless the invoking closure's captured
`isVideoInitialized` is true and the live `videoRef.current` is non-null;
otherwise one more gallery build goes into flight. -/
def startDetectionBegin (capturedInit : Bool) (s : AppState) : AppState :=
  if capturedInit && videoMounted s then
    { s with pendingGallery := s.pendingGallery + 1 }
  else s

/-- First rejection message of the three model loads joined by
`Promise.all` in `loadModels`. -/
def firstErr (a b c : Option String) : String :=
  match a, b, c with
  | some m, _, _ => m
  | none, some m, _ => m
  | none, none, some m => m
  | none, none, none => ""

/-- Events of the session controller, one per user action or asynchronous
resumption point of the primary `App.jsx`. `modelsResolved k` settles the
`k`-th in-flight `loadModels` invocation (network order is arbitrary). -/
inductive Ev where
  | toggle
  | camResolved (ok : Bool) (nTracks : Nat) (msg : String)
  | metadata
  | toggleCont
  | modelsResolved (k : Nat) (a b c : Option String)
  | galleryResolved (fd : String → Nat → Outcome)
  | tick (t : Nat) (fail : Bool)
  | retryClick
  | teardown

/-- Small-step semantics of the session controller. Each event is one
atomic turn of the JS event loop together with the React commit and the
effects it triggers. -/
def step (labels : List String) (e : Ev) (s : AppState) : AppState :=
  match e with
  | .toggle =>
    if s.isVideoOn then
      -- toggleVideo off-branch: stopVideo(); setIsVideoOn(false); the
      -- [isVideoOn] effect cleanup (clearInterval + stopVideo) and its
      -- else-branch stopVideo() run; loadModels identity changed
      -- (isVideoOn, and isVideoInitialized via stopVideo), so the
      -- [loadModels] effect re-runs loadModels with fresh captures.
      spawnLoad (stopVideo { (stopVideo s) with isVideoOn := false })
    else
      -- toggleVideo on-branch: the click-render closure captures
      -- areModelsLoaded and (through its startFaceDetection)
      -- isVideoInitialized; setIsVideoOn(true); the effect's
      -- initializeVideo and the awaited one start one acquisition
      -- (coalesced); the identity change re-runs loadModels.
      spawnLoad
        { s with
          isVideoOn := true
          pendingInit := true
          toggleSnap := some ⟨s.areModelsLoaded, s.isVideoInitialized⟩ }
  | .camResolved ok nTracks m =>
    if s.pendingInit then
      if ok then
        let s2 :=
          { s with
            pendingInit := false
            streams := s.streams ++ [List.replicate nTracks false] }
        if videoMounted s2 then
          -- videoRef.current non-null: attach the stream and install
          -- onloadedmetadata (App.jsx:129-136).
          { s2 with
            srcObject := some s.streams.length
            awaitingMetadata := true }
        else
          -- `if (!videoRef.current) return` (App.jsx:127): the acquired
          -- stream is leaked unattached, and the promise toggleVideo
          -- awaits resolves at once, queueing its continuation.
          { s2 with toggleReady := s2.toggleSnap, toggleSnap := none }
      else
        -- getUserMedia rejection: initializeVideo's catch sets the error
        -- and rethrows (App.jsx:137-140); the callers' catches set the
        -- final error and isVideoOn(false); the [isVideoOn] effect then
        -- runs stopVideo and the identity change re-runs loadModels.
        let wasOn := s.isVideoOn
        let s2 :=
          { s with
            pendingInit := false
            error := some m
            isVideoOn := false
            toggleSnap := none }
        if wasOn then spawnLoad (stopVideo s2) else s2
    else s
  | .metadata =>
    -- onloadedmetadata for the attached stream: setIsVideoInitialized(true)
    -- and resolve the promise toggleVideo awaits (App.jsx:131-136); the
    -- isVideoInitialized change re-runs loadModels.
    if s.awaitingMetadata && s.srcObject.isSome then
      let s2 :=
        { s with
          awaitingMetadata := false
          isVideoInitialized := true
          toggleReady := s.toggleSnap
          toggleSnap := none }
      if s.isVideoInitialized then s2 else spawnLoad s2
    else s
  | .toggleCont =>
    -- toggleVideo resumes after `await initializeVideo()` with its
    -- click-render captures: if (areModelsLoaded) await
    -- startFaceDetection() (App.jsx:205-207).
    match s.toggleReady with
    | some snap =>
      let s2 := { s with toggleReady := none }
      if snap.capturedAreModelsLoaded then
        startDetectionBegin snap.capturedIsVideoInitialized s2
      else s2
    | none => s
  | .modelsResolved k a b c =>
    -- the k-th in-flight loadModels invocation's Promise.all settles
    -- (App.jsx:96-110).
    match s.pendingLoads.get? k with
    | some snap =>
      let s2 := { s with pendingLoads := s.pendingLoads.eraseIdx k }
      if a.isNone && b.isNone && c.isNone then
        let s3 := { s2 with areModelsLoaded := true }
        let s4 :=
          if snap.capturedIsVideoOn then
            startDetectionBegin snap.capturedIsVideoInitialized s3
          else s3
        { s4 with isLoading := false }
      else
        { s2 with
          isLoading := false
          error := some ("Failed to load models: " ++ firstErr a b c)
          console := s2.console ++ ["Error loading models"] }
    | none => s
  | .galleryResolved fd =>
    -- a startFaceDetection invocation resumes after
    -- `await getLabeledFaceDescriptions()`; no flag or ref is re-checked
    -- before setInterval (App.jsx:48-86).
    if s.pendingGallery > 0 then
      let s2 :=
        { s with
          pendingGallery := s.pendingGallery - 1
          console := s.console ++ galleryWarnings labels fd }
      let g := getLabeledFaceDescriptions labels fd
      if g.length = 0 then
        -- throw new Error("No face descriptors found") caught below:
        -- setError("Face detection failed: " + msg); console.error.
        { s2 with
          error := some "Face detection failed: No face descriptors found"
          console := s2.console ++ ["Face detection error"] }
      else
        -- new FaceMatcher(...); detectionIntervalRef.current = setInterval(...)
        { s2 with
          activeTimers := s2.nextTimerId :: s2.activeTimers
          intervalRef := some s2.nextTimerId
          nextTimerId := s2.nextTimerId + 1 }
    else s
  | .tick t fail =>
    -- one firing of a live interval timer: with the video or canvas
    -- unmounted the body returns at once (App.jsx:57); otherwise it is
    -- wrapped in try/catch and the catch only logs (App.jsx:83-85).
    if t ∈ s.activeTimers then
      if videoMounted s then
        if fail then { s with console := s.console ++ ["Frame processing error"] }
        else { s with canvasOps := s.canvasOps + 1 }
      else s
    else s
  | .retryClick =>
    -- Retry button: setError(null); loadModels() (App.jsx:226-229).
    if s.error.isSome then spawnLoad { s with error := none } else s
  | .teardown =>
    -- effect cleanup at unmount: clearInterval(ref.current); stopVideo()
    stopVideo { s with activeTimers := clearTimer s.activeTimers s.intervalRef }

/-- Component state right after mount: everything off, with the initial
`loadModels()` in flight capturing the mount render's values
(`isLoading` starts `true`). -/
def initState : AppState where
  isVideoOn := false
  isVideoInitialized := false
  areModelsLoaded := false
  error := none
  isLoading := true
  streams := []
  srcObject := none
  activeTimers := []
  intervalRef := none
  nextTimerId := 0
  pendingInit := false
  awaitingMetadata := false
  toggleSnap := none
  toggleReady := none
  pendingLoads := [⟨false, false⟩]
  pendingGallery := 0
  console := []
  canvasOps := 0

/-- Run a trace of events from a given state. -/
def runFrom (labels : List String) (s : AppState) : List Ev → AppState
  | [] => s
  | e :: tr => runFrom labels (step labels e s) tr

/-- The events making up the two asynchronous readiness transitions
(camera becoming ready: acquisition success, metadata, the toggle
continuation; models finishing loading and the gallery builds they
trigger). -/
def isReadiness : Ev → Bool
  | .camResolved ok _ _ => ok
  | .metadata => true
  | .toggleCont => true
  | .modelsResolved _ _ _ _ => true
  | .galleryResolved _ => true
  | _ => false

section GalleryLemmas

variable (fd : String → Nat → Outcome) (label : String)

theorem processImage_attempts (acc : LoopLog) (i : Nat) :
    (processImage fd label acc i).attempts = acc.attempts ++ [i] := by
  unfold processImage
  cases fd label i <;> rfl

theorem foldl_processImage_attempts (l : List Nat) (acc : LoopLog) :
    ((l.foldl (processImage fd label) acc).attempts) = acc.attempts ++ l := by
  induction l generalizing acc with
  | nil => simp
  | cons i rest ih =>
    simp only [List.foldl_cons, ih, processImage_attempts, List.append_assoc,
      List.singleton_append]

/-- Every index in the loop bound is attempted exactly once, in order. -/
theorem processLabel_attempts (bound : Nat) :
    (processLabel fd bound label).attempts = List.range bound := by
  simp [processLabel, foldl_processImage_attempts]

/-- The warning emitted by one image-loop iteration. -/
def imageWarning (i : Nat) : Option String :=
  match fd label i with
  | .err m => some (warnMsg i label m)
  | _ => none

theorem processImage_warnings (acc : LoopLog) (i : Nat) :
    (processImage fd label acc i).warnings =
      acc.warnings ++ (imageWarning fd label i).toList := by
  unfold processImage imageWarning
  cases fd label i <;> simp

theorem foldl_processImage_warnings (l : List Nat) (acc : LoopLog) :
    ((l.foldl (processImage fd label) acc).warnings) =
      acc.warnings ++ l.filterMap (imageWarning fd label) := by
  induction l generalizing acc with
  | nil => simp
  | cons i rest ih =>
    simp only [List.foldl_cons, ih, processImage_warnings, List.filterMap_cons]
    cases h : imageWarning fd label i <;> simp [h]

theorem processLabel_warnings (bound : Nat) :
    (processLabel fd bound label).warnings =
      (List.range bound).filterMap (imageWarning fd label) := by
  simp [processLabel, foldl_processImage_warnings]

/-- A per-image failure in the primary builder produces its warning and the
loop continues for the remaining indices. -/
theorem warning_of_err {i bound : Nat} {m : String}
    (hi : i < bound) (h : fd label i = .err m) :
    warnMsg i label m ∈ (processLabel fd bound label).warnings := by
  rw [processLabel_warnings]
  exact List.mem_filterMap.mpr
    ⟨i, List.mem_range.mpr hi, by simp [imageWarning, h]⟩

/-- No entry of the primary gallery has an empty descriptor list. -/
theorem gallery_no_empty_label {labels : List String}
    {label : String} {ds : List Nat}
    (h : (label, ds) ∈ getLabeledFaceDescriptions labels fd) : ds ≠ [] := by
  rcases List.mem_filterMap.mp h with ⟨l, _, hl⟩
  by_cases hpos : (processLabel fd labels.length l).descriptors.length > 0
  · simp only [getLabeledFaceDescriptions, hpos, if_pos] at hl
    cases hl
    intro hnil
    rw [hnil] at hpos
    simp at hpos
  · simp [hpos] at hl

theorem processLabelB_error_of_bad (idxs : List Nat)
    (h : ∃ i ∈ idxs, ∀ d, fd label i ≠ .ok d) :
    ∃ m, processLabelB fd label idxs = .error m := by
  induction idxs with
  | nil => rcases h with ⟨i, hi, _⟩; cases hi
  | cons i rest ih =>
    cases hfd : fd label i with
    | err m => exact ⟨m, by simp [processLabelB, hfd]⟩
    | noFace =>
      exact ⟨"TypeError: cannot read descriptor of undefined",
        by simp [processLabelB, hfd]⟩
    | ok d =>
      rcases h with ⟨j, hj, hbad⟩
      rcases List.mem_cons.mp hj with rfl | hjr
      · exact absurd hfd (hbad d)
      · rcases ih ⟨j, hjr, hbad⟩ with ⟨m, hm⟩
        exact ⟨m, by simp [processLabelB, hfd, hm, Except.map]⟩

theorem buildB_error_of_bad (bound : Nat) (labels : List String)
    (h : ∃ l ∈ labels, ∃ m, processLabelB fd l (List.range bound) = .error m) :
    ∃ m, buildB fd bound labels = .error m := by
  induction labels with
  | nil => rcases h with ⟨l, hl, _⟩; cases hl
  | cons a rest ih =>
    cases hpa : processLabelB fd a (List.range bound) with
    | error m => exact ⟨m, by simp [buildB, hpa, Bind.bind, Except.bind]⟩
    | ok ds =>
      rcases h with ⟨l, hl, m, hm⟩
      rcases List.mem_cons.mp hl with rfl | hlr
      · rw [hpa] at hm; cases hm
      · rcases ih ⟨l, hlr, m, hm⟩ with ⟨m2, hm2⟩
        exact ⟨m2, by simp [buildB, hpa, hm2, Bind.bind, Except.bind]⟩

/-- If one label has one bad image inside the iteration bound, the whole
second-variant gallery build rejects. -/
theorem galleryB_aborts {labels : List String} {l : String} {i : Nat}
    (hl : l ∈ labels) (hi : i < labels.length)
    (hbad : ∀ d, fd l i ≠ .ok d) :
    ∃ m, getLabeledFaceDescriptionsB labels fd = .error m := by
  rcases processLabelB_error_of_bad fd l (List.range labels.length)
      ⟨i, List.mem_range.mpr hi, hbad⟩ with ⟨m, hm⟩
  exact buildB_error_of_bad fd labels.length labels ⟨l, hl, m, hm⟩

end GalleryLemmas

section StateLemmas

variable (s : AppState)

@[simp] theorem stopVideo_isVideoOn : (stopVideo s).isVideoOn = s.isVideoOn := by
  cases h : s.srcObject <;> simp [stopVideo, h]

@[simp] theorem stopVideo_isVideoInitialized :
    (stopVideo s).isVideoInitialized = false := by
  cases h : s.srcObject <;> simp [stopVideo, h]

@[simp] theorem stopVideo_areModelsLoaded :
    (stopVideo s).areModelsLoaded = s.areModelsLoaded := by
  cases h : s.srcObject <;> simp [stopVideo, h]

@[simp] theorem stopVideo_error : (stopVideo s).error = s.error := by
  cases h : s.srcObject <;> simp [stopVideo, h]

@[simp] theorem stopVideo_isLoading : (stopVideo s).isLoading = s.isLoading := by
  cases h : s.srcObject <;> simp [stopVideo, h]

@[simp] theorem stopVideo_srcObject : (stopVideo s).srcObject = none := by
  cases h : s.srcObject <;> simp [stopVideo, h]

@[simp] theorem stopVideo_activeTimers :
    (stopVideo s).activeTimers = clearTimer s.activeTimers s.intervalRef := by
  cases h : s.srcObject <;> simp [stopVideo, h]

@[simp] theorem stopVideo_intervalRef :
    (stopVideo s).intervalRef = s.intervalRef := by
  cases h : s.srcObject <;> simp [stopVideo, h]

@[simp] theorem stopVideo_nextTimerId :
    (stopVideo s).nextTimerId = s.nextTimerId := by
  cases h : s.srcObject <;> simp [stopVideo, h]

@[simp] theorem stopVideo_pendingInit :
    (stopVideo s).pendingInit = s.pendingInit := by
  cases h : s.srcObject <;> simp [stopVideo, h]

@[simp] theorem stopVideo_awaitingMetadata :
    (stopVideo s).awaitingMetadata = s.awaitingMetadata := by
  cases h : s.srcObject <;> simp [stopVideo, h]

@[simp] theorem stopVideo_toggleSnap :
    (stopVideo s).toggleSnap = s.toggleSnap := by
  cases h : s.srcObject <;> simp [stopVideo, h]

@[simp] theorem stopVideo_toggleReady :
    (stopVideo s).toggleReady = s.toggleReady := by
  cases h : s.srcObject <;> simp [stopVideo, h]

@[simp] theorem stopVideo_pendingLoads :
    (stopVideo s).pendingLoads = s.pendingLoads := by
  cases h : s.srcObject <;> simp [stopVideo, h]

@[simp] theorem stopVideo_pendingGallery :
    (stopVideo s).pendingGallery = s.pendingGallery := by
  cases h : s.srcObject <;> simp [stopVideo, h]

@[simp] theorem stopVideo_console : (stopVideo s).console = s.console := by
  cases h : s.srcObject <;> simp [stopVideo, h]

@[simp] theorem spawnLoad_isVideoOn : (spawnLoad s).isVideoOn = s.isVideoOn := rfl

@[simp] theorem spawnLoad_isVideoInitialized :
    (spawnLoad s).isVideoInitialized = s.isVideoInitialized := rfl

@[simp] theorem spawnLoad_areModelsLoaded :
    (spawnLoad s).areModelsLoaded = s.areModelsLoaded := rfl

@[simp] theorem spawnLoad_error : (spawnLoad s).error = s.error := rfl

@[simp] theorem spawnLoad_srcObject : (spawnLoad s).srcObject = s.srcObject := rfl

@[simp] theorem spawnLoad_streams : (spawnLoad s).streams = s.streams := rfl

@[simp] theorem spawnLoad_activeTimers :
    (spawnLoad s).activeTimers = s.activeTimers := rfl

@[simp] theorem spawnLoad_intervalRef :
    (spawnLoad s).intervalRef = s.intervalRef := rfl

@[simp] theorem spawnLoad_pendingGallery :
    (spawnLoad s).pendingGallery = s.pendingGallery := rfl

@[simp] theorem spawnLoad_toggleSnap :
    (spawnLoad s).toggleSnap = s.toggleSnap := rfl

@[simp] theorem spawnLoad_toggleReady :
    (spawnLoad s).toggleReady = s.toggleReady := rfl

@[simp] theorem spawnLoad_pendingLoads :
    (spawnLoad s).pendingLoads =
      s.pendingLoads ++ [⟨s.isVideoOn, s.isVideoInitialized⟩] := rfl

@[simp] theorem startDetectionBegin_isVideoOn (b : Bool) :
    (startDetectionBegin b s).isVideoOn = s.isVideoOn := by
  unfold startDetectionBegin; split <;> rfl

@[simp] theorem startDetectionBegin_isVideoInitialized (b : Bool) :
    (startDetectionBegin b s).isVideoInitialized = s.isVideoInitialized := by
  unfold startDetectionBegin; split <;> rfl

@[simp] theorem startDetectionBegin_areModelsLoaded (b : Bool) :
    (startDetectionBegin b s).areModelsLoaded = s.areModelsLoaded := by
  unfold startDetectionBegin; split <;> rfl

@[simp] theorem startDetectionBegin_error (b : Bool) :
    (startDetectionBegin b s).error = s.error := by
  unfold startDetectionBegin; split <;> rfl

@[simp] theorem startDetectionBegin_srcObject (b : Bool) :
    (startDetectionBegin b s).srcObject = s.srcObject := by
  unfold startDetectionBegin; split <;> rfl

@[simp] theorem startDetectionBegin_activeTimers (b : Bool) :
    (startDetectionBegin b s).activeTimers = s.activeTimers := by
  unfold startDetectionBegin; split <;> rfl

@[simp] theorem startDetectionBegin_intervalRef (b : Bool) :
    (startDetectionBegin b s).intervalRef = s.intervalRef := by
  unfold startDetectionBegin; split <;> rfl

@[simp] theorem startDetectionBegin_toggleReady (b : Bool) :
    (startDetectionBegin b s).toggleReady = s.toggleReady := by
  unfold startDetectionBegin; split <;> rfl

@[simp] theorem startDetectionBegin_pendingLoads (b : Bool) :
    (startDetectionBegin b s).pendingLoads = s.pendingLoads := by
  unfold startDetectionBegin; split <;> rfl

theorem videoMounted_models {s : AppState} (h : videoMounted s = true) :
    s.areModelsLoaded = true := by
  have h2 := (Bool.and_eq_true _ _).mp h
  exact ((Bool.and_eq_true _ _).mp h2.1).1

theorem clearTimer_ne_nil {l : List Nat} {r : Option Nat}
    (h : clearTimer l r ≠ []) : l ≠ [] := by
  intro hnil
  subst hnil
  cases r <;> simp [clearTimer] at h

theorem not_mem_clearTimer {l : List Nat} {id : Nat}
    (h : r = some id) : id ∉ clearTimer l r := by
  subst h
  simp [clearTimer]

theorem clearTimer_eq_nil {l : List Nat} {r : Option Nat}
    (h : ∀ t ∈ l, r = some t) : clearTimer l r = [] := by
  cases hr : r with
  | none =>
    have : l = [] := by
      cases l with
      | nil => rfl
      | cons a t => exact absurd (h a (List.mem_cons_self a t)) (by rw [hr]; simp)
    simp [this, clearTimer]
  | some id =>
    simp only [clearTimer]
    apply List.filter_eq_nil_iff.mpr
    intro a ha
    have := h a ha
    rw [hr] at this
    cases this
    simp

theorem clearTimer_eq_self {l : List Nat} {r : Option Nat}
    (h : ∀ id, r = some id → id ∉ l) : clearTimer l r = l := by
  cases hr : r with
  | none => rfl
  | some id =>
    simp only [clearTimer]
    apply List.filter_eq_self.mpr
    intro a ha
    simp only [ne_eq, decide_eq_true_eq]
    intro hx
    exact h id hr (hx ▸ ha)

end StateLemmas

theorem ite_cond_true {α : Sort _} [inst : Decidable (true = true)]
    (a b : α) : (if true = true then a else b) = a := if_pos rfl

/-- Any in-flight gallery build and any live timer implies the models
flag: polling cannot start or run without the models loaded. -/
def ModelsInv (s : AppState) : Prop :=
  (0 < s.pendingGallery → s.areModelsLoaded = true) ∧
  (s.activeTimers ≠ [] → s.areModelsLoaded = true)

theorem startDetectionBegin_ModelsInv (b : Bool) (s : AppState)
    (h : ModelsInv s) : ModelsInv (startDetectionBegin b s) := by
  obtain ⟨h1, h2⟩ := h
  unfold startDetectionBegin
  by_cases hc : (b && videoMounted s) = true
  · rw [if_pos hc]
    have hm : s.areModelsLoaded = true :=
      videoMounted_models ((Bool.and_eq_true _ _).mp hc).2
    exact ⟨fun _ => hm, fun _ => hm⟩
  · rw [if_neg hc]
    exact ⟨h1, h2⟩

theorem step_ModelsInv (labels : List String) (e : Ev) (s : AppState)
    (h : ModelsInv s) : ModelsInv (step labels e s) := by
  obtain ⟨h1, h2⟩ := h
  cases e with
  | toggle =>
    simp only [step]
    by_cases hv : s.isVideoOn = true
    · rw [if_pos hv]
      refine ⟨fun hp => ?_, fun ht => ?_⟩
      · simp only [spawnLoad_pendingGallery, stopVideo_pendingGallery] at hp
        simp only [spawnLoad_areModelsLoaded, stopVideo_areModelsLoaded]
        exact h1 hp
      · simp only [spawnLoad_activeTimers, stopVideo_activeTimers,
          stopVideo_intervalRef] at ht
        simp only [spawnLoad_areModelsLoaded, stopVideo_areModelsLoaded]
        exact h2 (clearTimer_ne_nil (clearTimer_ne_nil ht))
    · rw [if_neg hv]
      exact ⟨h1, h2⟩
  | camResolved ok n m =>
    simp only [step]
    by_cases hpi : s.pendingInit = true
    · rw [if_pos hpi]
      cases ok with
      | true =>
        first
        | rw [ite_cond_true]
        | rw [if_pos trivial]
        split
        · exact ⟨h1, h2⟩
        · exact ⟨h1, h2⟩
      | false =>
        rw [if_neg Bool.false_ne_true]
        by_cases hv : s.isVideoOn = true
        · rw [if_pos hv]
          refine ⟨fun hp => ?_, fun ht => ?_⟩
          · simp only [spawnLoad_pendingGallery, stopVideo_pendingGallery] at hp
            simp only [spawnLoad_areModelsLoaded, stopVideo_areModelsLoaded]
            exact h1 hp
          · simp only [spawnLoad_activeTimers, stopVideo_activeTimers,
              stopVideo_intervalRef] at ht
            simp only [spawnLoad_areModelsLoaded, stopVideo_areModelsLoaded]
            exact h2 (clearTimer_ne_nil ht)
        · rw [if_neg hv]
          exact ⟨h1, h2⟩
    · rw [if_neg hpi]
      exact ⟨h1, h2⟩
  | metadata =>
    simp only [step]
    by_cases hg : (s.awaitingMetadata && s.srcObject.isSome) = true
    · rw [if_pos hg]
      by_cases hi : s.isVideoInitialized = true
      · rw [if_pos hi]
        exact ⟨h1, h2⟩
      · rw [if_neg hi]
        exact ⟨h1, h2⟩
    · rw [if_neg hg]
      exact ⟨h1, h2⟩
  | toggleCont =>
    cases htr : s.toggleReady with
    | none =>
      simp only [step, htr]
      exact ⟨h1, h2⟩
    | some snap =>
      simp only [step, htr]
      by_cases hm : snap.capturedAreModelsLoaded = true
      · rw [if_pos hm]
        exact startDetectionBegin_ModelsInv _ _ ⟨h1, h2⟩
      · rw [if_neg hm]
        exact ⟨h1, h2⟩
  | modelsResolved k a b c =>
    cases hget : s.pendingLoads.get? k with
    | none =>
      simp only [step, hget]
      exact ⟨h1, h2⟩
    | some snap =>
      simp only [step, hget]
      by_cases hok : (a.isNone && b.isNone && c.isNone) = true
      · rw [if_pos hok]
        by_cases hvo : snap.capturedIsVideoOn = true
        · rw [if_pos hvo]
          constructor
          · intro _
            show (startDetectionBegin _ _).areModelsLoaded = true
            rw [startDetectionBegin_areModelsLoaded]
          · intro _
            show (startDetectionBegin _ _).areModelsLoaded = true
            rw [startDetectionBegin_areModelsLoaded]
        · rw [if_neg hvo]
          exact ⟨fun _ => rfl, fun _ => rfl⟩
      · rw [if_neg hok]
        exact ⟨h1, h2⟩
  | galleryResolved fd =>
    simp only [step]
    by_cases hpg : 0 < s.pendingGallery
    · have hm := h1 hpg
      rw [if_pos hpg]
      split
      · exact ⟨fun _ => hm, fun _ => hm⟩
      · exact ⟨fun _ => hm, fun _ => hm⟩
    · rw [if_neg hpg]
      exact ⟨h1, h2⟩
  | tick t fail =>
    simp only [step]
    by_cases hmem : t ∈ s.activeTimers
    · rw [if_pos hmem]
      by_cases hvm : videoMounted s = true
      · rw [if_pos hvm]
        cases fail
        · exact ⟨h1, h2⟩
        · exact ⟨h1, h2⟩
      · rw [if_neg hvm]
        exact ⟨h1, h2⟩
    · rw [if_neg hmem]
      exact ⟨h1, h2⟩
  | retryClick =>
    simp only [step]
    by_cases he : s.error.isSome = true
    · rw [if_pos he]
      exact ⟨h1, h2⟩
    · rw [if_neg he]
      exact ⟨h1, h2⟩
  | teardown =>
    simp only [step]
    refine ⟨fun hp => ?_, fun ht => ?_⟩
    · simp only [stopVideo_pendingGallery] at hp
      simpa only [stopVideo_areModelsLoaded] using h1 hp
    · simp only [stopVideo_activeTimers, stopVideo_intervalRef] at ht
      simpa only [stopVideo_areModelsLoaded] using
        h2 (clearTimer_ne_nil (clearTimer_ne_nil ht))

theorem runFrom_ModelsInv (labels : List String) (tr : List Ev) :
    ∀ s : AppState, ModelsInv s → ModelsInv (runFrom labels s tr) := by
  induction tr with
  | nil => exact fun s h => h
  | cons e rest ih =>
    intro s h
    exact ih (step labels e s) (step_ModelsInv labels e s h)

/-- While a gallery build is in flight, both readiness flags hold, and
every in-flight snapshot that captured `isVideoInitialized = true` was
captured at a render where it really was true; readiness events never
clear the flags, so this is inductive along readiness-only traces. -/
def ReadyInv (s : AppState) : Prop :=
  (0 < s.pendingGallery →
    s.isVideoInitialized = true ∧ s.areModelsLoaded = true) ∧
  (∀ snap ∈ s.pendingLoads,
    snap.capturedIsVideoInitialized = true → s.isVideoInitialized = true) ∧
  (∀ snap : ToggleSnap, s.toggleSnap = some snap ∨ s.toggleReady = some snap →
    snap.capturedIsVideoInitialized = true → s.isVideoInitialized = true)

theorem step_ReadyInv (labels : List String) (e : Ev) (s : AppState)
    (he : isReadiness e = true) (h : ReadyInv s) :
    ReadyInv (step labels e s) := by
  obtain ⟨h1, h2, h3⟩ := h
  cases e with
  | toggle => exact absurd he Bool.false_ne_true
  | camResolved ok n m =>
    cases ok with
    | false => exact absurd he Bool.false_ne_true
    | true =>
      simp only [step]
      by_cases hpi : s.pendingInit = true
      · rw [if_pos hpi]
        first
        | rw [ite_cond_true]
        | rw [if_pos trivial]
        split
        · exact ⟨h1, h2, fun snap hd hi => h3 snap hd hi⟩
        · refine ⟨h1, h2, fun snap hd hi => ?_⟩
          rcases hd with hd | hd
          · exact Option.noConfusion hd
          · exact h3 snap (Or.inl hd) hi
      · rw [if_neg hpi]
        exact ⟨h1, h2, h3⟩
  | metadata =>
    simp only [step]
    by_cases hg : (s.awaitingMetadata && s.srcObject.isSome) = true
    · rw [if_pos hg]
      by_cases hi : s.isVideoInitialized = true
      · rw [if_pos hi]
        exact ⟨fun hp => ⟨rfl, (h1 hp).2⟩, fun _ _ _ => rfl, fun _ _ _ => rfl⟩
      · rw [if_neg hi]
        exact ⟨fun hp => ⟨rfl, (h1 hp).2⟩, fun _ _ _ => rfl, fun _ _ _ => rfl⟩
    · rw [if_neg hg]
      exact ⟨h1, h2, h3⟩
  | toggleCont =>
    cases htr : s.toggleReady with
    | none =>
      simp only [step, htr]
      exact ⟨h1, h2, h3⟩
    | some snap =>
      simp only [step, htr]
      by_cases hm : snap.capturedAreModelsLoaded = true
      · rw [if_pos hm]
        unfold startDetectionBegin
        by_cases hc : (snap.capturedIsVideoInitialized &&
            videoMounted { s with toggleReady := none }) = true
        · rw [if_pos hc]
          obtain ⟨hci, hvm⟩ := (Bool.and_eq_true _ _).mp hc
          have hinit : s.isVideoInitialized = true := h3 snap (Or.inr htr) hci
          have hmod : s.areModelsLoaded = true := videoMounted_models hvm
          refine ⟨fun _ => ⟨hinit, hmod⟩, fun snap2 hm2 hi2 => h2 snap2 hm2 hi2,
            fun snap2 hd hi2 => ?_⟩
          rcases hd with hd | hd
          · exact h3 snap2 (Or.inl hd) hi2
          · exact Option.noConfusion hd
        · rw [if_neg hc]
          refine ⟨fun hp => h1 hp, fun snap2 hm2 hi2 => h2 snap2 hm2 hi2,
            fun snap2 hd hi2 => ?_⟩
          rcases hd with hd | hd
          · exact h3 snap2 (Or.inl hd) hi2
          · exact Option.noConfusion hd
      · rw [if_neg hm]
        refine ⟨fun hp => h1 hp, fun snap2 hm2 hi2 => h2 snap2 hm2 hi2,
          fun snap2 hd hi2 => ?_⟩
        rcases hd with hd | hd
        · exact h3 snap2 (Or.inl hd) hi2
        · exact Option.noConfusion hd
  | modelsResolved k a b c =>
    cases hget : s.pendingLoads.get? k with
    | none =>
      simp only [step, hget]
      exact ⟨h1, h2, h3⟩
    | some snap =>
      simp only [step, hget]
      have hmem : snap ∈ s.pendingLoads := List.get?_mem hget
      by_cases hok : (a.isNone && b.isNone && c.isNone) = true
      · rw [if_pos hok]
        by_cases hvo : snap.capturedIsVideoOn = true
        · rw [if_pos hvo]
          unfold startDetectionBegin
          by_cases hc : (snap.capturedIsVideoInitialized &&
              videoMounted { { s with pendingLoads := s.pendingLoads.eraseIdx k }
                with areModelsLoaded := true }) = true
          · rw [if_pos hc]
            have hci := ((Bool.and_eq_true _ _).mp hc).1
            have hinit : s.isVideoInitialized = true := h2 snap hmem hci
            exact ⟨fun _ => ⟨hinit, rfl⟩,
              fun snap2 hm2 hi2 => h2 snap2 (List.eraseIdx_subset _ _ hm2) hi2,
              fun snap2 hd hi2 => h3 snap2 hd hi2⟩
          · rw [if_neg hc]
            exact ⟨fun hp => ⟨(h1 hp).1, rfl⟩,
              fun snap2 hm2 hi2 => h2 snap2 (List.eraseIdx_subset _ _ hm2) hi2,
              fun snap2 hd hi2 => h3 snap2 hd hi2⟩
        · rw [if_neg hvo]
          exact ⟨fun hp => ⟨(h1 hp).1, rfl⟩,
            fun snap2 hm2 hi2 => h2 snap2 (List.eraseIdx_subset _ _ hm2) hi2,
            fun snap2 hd hi2 => h3 snap2 hd hi2⟩
      · rw [if_neg hok]
        exact ⟨fun hp => h1 hp,
          fun snap2 hm2 hi2 => h2 snap2 (List.eraseIdx_subset _ _ hm2) hi2,
          fun snap2 hd hi2 => h3 snap2 hd hi2⟩
  | galleryResolved fd =>
    simp only [step]
    by_cases hpg : 0 < s.pendingGallery
    · rw [if_pos hpg]
      split
      · exact ⟨fun _ => h1 hpg, fun snap hm hi => h2 snap hm hi,
          fun snap hd hi => h3 snap hd hi⟩
      · exact ⟨fun _ => h1 hpg, fun snap hm hi => h2 snap hm hi,
          fun snap hd hi => h3 snap hd hi⟩
    · rw [if_neg hpg]
      exact ⟨h1, h2, h3⟩
  | tick t fail => exact absurd he Bool.false_ne_true
  | retryClick => exact absurd he Bool.false_ne_true
  | teardown => exact absurd he Bool.false_ne_true

theorem runFrom_ReadyInv (labels : List String) (tr : List Ev) :
    ∀ s : AppState, (∀ x ∈ tr, isReadiness x = true) → ReadyInv s →
      ReadyInv (runFrom labels s tr) := by
  induction tr with
  | nil => exact fun s _ h => h
  | cons e rest ih =>
    intro s htr h
    exact ih (step labels e s) (fun x hx => htr x (List.mem_cons_of_mem e hx))
      (step_ReadyInv labels e s (htr e (List.mem_cons_self e rest)) h)

/-- A readiness event can change the set of live timers only by resuming an
in-flight gallery build, and such a resumption leaves both readiness flags
unchanged. -/
theorem readiness_timer_frame (labels : List String) (e : Ev) (s : AppState)
    (he : isReadiness e = true)
    (hch : (step labels e s).activeTimers ≠ s.activeTimers) :
    0 < s.pendingGallery ∧
    (step labels e s).isVideoInitialized = s.isVideoInitialized ∧
    (step labels e s).areModelsLoaded = s.areModelsLoaded := by
  cases e with
  | toggle => exact absurd he Bool.false_ne_true
  | camResolved ok n m =>
    cases ok with
    | false => exact absurd he Bool.false_ne_true
    | true =>
      exfalso
      apply hch
      simp only [step]
      by_cases hpi : s.pendingInit = true
      · rw [if_pos hpi]
        first
        | rw [ite_cond_true]
        | rw [if_pos trivial]
        split
        · rfl
        · rfl
      · rw [if_neg hpi]
  | metadata =>
    exfalso
    apply hch
    simp only [step]
    by_cases hg : (s.awaitingMetadata && s.srcObject.isSome) = true
    · rw [if_pos hg]
      by_cases hi : s.isVideoInitialized = true
      · rw [if_pos hi]
      · rw [if_neg hi, spawnLoad_activeTimers]
    · rw [if_neg hg]
  | toggleCont =>
    exfalso
    apply hch
    cases htr : s.toggleReady with
    | none => simp only [step, htr]
    | some snap =>
      simp only [step, htr]
      by_cases hm : snap.capturedAreModelsLoaded = true
      · rw [if_pos hm, startDetectionBegin_activeTimers]
      · rw [if_neg hm]
  | modelsResolved k a b c =>
    exfalso
    apply hch
    cases hget : s.pendingLoads.get? k with
    | none => simp only [step, hget]
    | some snap =>
      simp only [step, hget]
      by_cases hok : (a.isNone && b.isNone && c.isNone) = true
      · rw [if_pos hok]
        by_cases hvo : snap.capturedIsVideoOn = true
        · rw [if_pos hvo]
          show (startDetectionBegin _ _).activeTimers = _
          rw [startDetectionBegin_activeTimers]
        · rw [if_neg hvo]
      · rw [if_neg hok]
  | galleryResolved fd =>
    by_cases hpg : 0 < s.pendingGallery
    · refine ⟨hpg, ?_, ?_⟩ <;> simp only [step] <;> rw [if_pos hpg] <;>
        split <;> rfl
    · exfalso
      apply hch
      simp only [step]
      rw [if_neg hpg]
  | tick t fail => exact absurd he Bool.false_ne_true
  | retryClick => exact absurd he Bool.false_ne_true
  | teardown => exact absurd he Bool.false_ne_true

/-- Recognises the retry click. -/
def isRetry : Ev → Bool
  | .retryClick => true
  | _ => false

/-- Constant-success image oracle. -/
def fdOK : String → Nat → Outcome := fun _ _ => .ok 0

/-- Oracle whose image 0 succeeds and whose other images throw on fetch. -/
def fdBad : String → Nat → Outcome :=
  fun _ i => if i = 0 then .ok 1 else .err "404 fetch failed"

/-- Oracle that finds no face in any image. -/
def fdNoFace : String → Nat → Outcome := fun _ _ => .noFace

/-- Models-loaded-first double-start trace: the mount load succeeds, an
on-phase reaches metadata (spawning a loadModels re-run that captured
isVideoInitialized = true), the user toggles off and on again, a second
such re-run is spawned, and both re-runs then resolve: each one's
startFaceDetection passes its captured-flag check and the live videoRef
check and installs an interval, the second overwriting the handle. -/
def doubleStartTrace : List Ev :=
  [.modelsResolved 0 none none none,
   .toggle, .camResolved true 1 "", .metadata, .toggleCont,
   .toggle, .toggle, .camResolved true 1 "", .metadata, .toggleCont,
   .modelsResolved 1 none none none, .modelsResolved 3 none none none,
   .galleryResolved fdOK, .galleryResolved fdOK]

/-- Trace reaching a state with a live timer but no held stream: a
loadModels re-run that captured isVideoInitialized = true resolves and
starts a gallery build; the user toggles off while the build is in
flight; the build then resumes and installs its interval unconditionally
(App.jsx:48-86 re-checks nothing after the await). -/
def orphanTrace : List Ev :=
  [.modelsResolved 0 none none none,
   .toggle, .camResolved true 1 "", .metadata, .toggleCont,
   .modelsResolved 1 none none none,
   .toggle, .galleryResolved fdOK]

/-- Happy-path trace starting one timer: mount load succeeds, toggle on,
attach, metadata (spawning the re-run that captured both flags), the
re-run resolves and its gallery build completes. -/
def startTrace : List Ev :=
  [.modelsResolved 0 none none none,
   .toggle, .camResolved true 1 "", .metadata, .toggleCont,
   .modelsResolved 1 none none none, .galleryResolved fdOK]

/-- The flag rises without a retry: the mount load fails after a toggle
already spawned a re-run, and the re-run then succeeds. -/
def c5Trace : List Ev :=
  [.toggle,
   .modelsResolved 0 (some "network error") none none,
   .modelsResolved 0 none none none]

/-- On-state with models loaded and one live referenced timer. -/
def sTimerOn : AppState :=
  { initState with
    isVideoOn := true
    areModelsLoaded := true
    activeTimers := [0]
    intervalRef := some 0
    nextTimerId := 1 }

/-- On-state awaiting getUserMedia. -/
def sCamPending : AppState :=
  { initState with isVideoOn := true, pendingInit := true }

/-- State with one gallery build in flight and both readiness flags set. -/
def sGalleryPending : AppState :=
  { initState with
    isVideoInitialized := true
    areModelsLoaded := true
    pendingGallery := 1 }

/-- Stream-holding state. -/
def sHeld : AppState :=
  { initState with
    srcObject := some 0
    streams := [[false, false]]
    isVideoInitialized := true }

/-- C1: for every interleaving of the two asynchronous readiness
transitions (camera becoming ready, models finishing loading) after the
camera is toggled on, the polling timer is never started while either
readiness flag (isVideoInitialized, areModelsLoaded) is false. -/
theorem C1_polling_never_starts_unready (labels : List String) (tr : List Ev)
    (e : Ev) (htr : ∀ x ∈ tr, isReadiness x = true) (he : isReadiness e = true)
    (hstart :
      (step labels e (runFrom labels (step labels .toggle initState) tr)).activeTimers ≠
        (runFrom labels (step labels .toggle initState) tr).activeTimers) :
    (step labels e (runFrom labels (step labels .toggle initState) tr)).isVideoInitialized = true ∧
    (step labels e (runFrom labels (step labels .toggle initState) tr)).areModelsLoaded = true := by
  have hr0 : ReadyInv (step labels Ev.toggle initState) := by
    refine ⟨fun hp => ?_, fun snap hm hi => ?_, fun snap hd hi => ?_⟩
    · have h0 : (step labels Ev.toggle initState).pendingGallery = 0 := rfl
      rw [h0] at hp
      exact absurd hp (by decide)
    · have hpl : (step labels Ev.toggle initState).pendingLoads =
          [⟨false, false⟩, ⟨true, false⟩] := rfl
      rw [hpl] at hm
      simp only [List.mem_cons, List.not_mem_nil, or_false] at hm
      rcases hm with rfl | rfl
      · exact absurd hi Bool.false_ne_true
      · exact absurd hi Bool.false_ne_true
    · rcases hd with hd | hd
      · have hts : (step labels Ev.toggle initState).toggleSnap =
            some ⟨false, false⟩ := rfl
        rw [hts] at hd
        have hsnap := Option.some.inj hd
        rw [← hsnap] at hi
        exact absurd hi Bool.false_ne_true
      · have htr2 : (step labels Ev.toggle initState).toggleReady = none := rfl
        rw [htr2] at hd
        exact Option.noConfusion hd
  have hinv : ReadyInv (runFrom labels (step labels .toggle initState) tr) :=
    runFrom_ReadyInv labels tr _ htr hr0
  obtain ⟨hpg, hi, hm⟩ :=
    readiness_timer_frame labels e
      (runFrom labels (step labels .toggle initState) tr) he hstart
  obtain ⟨hi0, hm0⟩ := hinv.1 hpg
  exact ⟨by rw [hi]; exact hi0, by rw [hm]; exact hm0⟩

/-- C1 witness: concrete readiness interleaving in which the timer does
start, with both flags true at that moment. -/
theorem C1_polling_never_starts_unready_witness :
    (step ["a"] (.galleryResolved fdOK)
      (runFrom ["a"] (step ["a"] .toggle initState)
        [.modelsResolved 0 none none none, .camResolved true 1 "",
         .metadata, .modelsResolved 1 none none none])).isVideoInitialized = true ∧
    (step ["a"] (.galleryResolved fdOK)
      (runFrom ["a"] (step ["a"] .toggle initState)
        [.modelsResolved 0 none none none, .camResolved true 1 "",
         .metadata, .modelsResolved 1 none none none])).areModelsLoaded = true :=
  C1_polling_never_starts_unready ["a"]
    [.modelsResolved 0 none none none, .camResolved true 1 "",
     .metadata, .modelsResolved 1 none none none]
    (.galleryResolved fdOK) (by decide) (by decide) (by decide)

/-- C2 counterexample: a reachable state has two live polling timers,
refuting "at most one polling timer instance is active at every reachable
state": two loadModels re-runs that captured isVideoInitialized = true
resolve in the same on-phase and each installs an interval. -/
theorem C2_two_timers_counterexample :
    (runFrom ["a"] initState doubleStartTrace).activeTimers.length = 2 := by
  decide

/-- C2 amended: the interval handle references at most one timer, and
toggle-off and teardown clear the referenced timer (toggle-off also
detaching the stream); but two overlapping timers are reachable, because
concurrent loadModels re-run completions each run startFaceDetection and
the second setInterval overwrites the handle, orphaning the first timer. -/
theorem C2_referenced_timer_cleared (labels : List String) (s : AppState)
    (id : Nat) (href : s.intervalRef = some id) (hon : s.isVideoOn = true) :
    id ∉ (step labels .toggle s).activeTimers ∧
    id ∉ (step labels .teardown s).activeTimers ∧
    (step labels .toggle s).srcObject = none := by
  refine ⟨?_, ?_, ?_⟩
  · simp only [step]
    rw [if_pos hon]
    simp only [spawnLoad_activeTimers, stopVideo_activeTimers,
      stopVideo_intervalRef]
    exact not_mem_clearTimer href
  · simp only [step, stopVideo_activeTimers, stopVideo_intervalRef]
    exact not_mem_clearTimer href
  · simp only [step]
    rw [if_pos hon]
    simp only [spawnLoad_srcObject, stopVideo_srcObject]

/-- C2 witness: the referenced timer is gone after toggle-off and teardown
from a concrete on-state. -/
theorem C2_referenced_timer_cleared_witness :
    0 ∉ (step [] .toggle sTimerOn).activeTimers ∧
    0 ∉ (step [] .teardown sTimerOn).activeTimers ∧
    (step [] .toggle sTimerOn).srcObject = none :=
  C2_referenced_timer_cleared [] sTimerOn 0 rfl rfl

/-- C3: when camera acquisition fails while the camera is requested, the
session ends with the video off, a non-empty error message, and no stream
attached. -/
theorem C3_camera_failure (labels : List String) (s : AppState) (n : Nat)
    (m : String) (hp : s.pendingInit = true) (hon : s.isVideoOn = true)
    (hm : m ≠ "") :
    (step labels (.camResolved false n m) s).isVideoOn = false ∧
    (step labels (.camResolved false n m) s).srcObject = none ∧
    ∃ t, (step labels (.camResolved false n m) s).error = some t ∧ t ≠ "" := by
  simp only [step]
  rw [if_pos hp, if_neg Bool.false_ne_true, if_pos hon]
  refine ⟨?_, ?_, ⟨m, ?_, hm⟩⟩
  · simp only [spawnLoad_isVideoOn, stopVideo_isVideoOn]
  · simp only [spawnLoad_srcObject, stopVideo_srcObject]
  · simp only [spawnLoad_error, stopVideo_error]

/-- C3 witness: a concrete permission denial from the acquiring state. -/
theorem C3_camera_failure_witness :
    (step [] (.camResolved false 2 "Permission denied") sCamPending).isVideoOn = false ∧
    (step [] (.camResolved false 2 "Permission denied") sCamPending).srcObject = none ∧
    ∃ t, (step [] (.camResolved false 2 "Permission denied") sCamPending).error = some t ∧ t ≠ "" :=
  C3_camera_failure [] sCamPending 2 "Permission denied" rfl rfl (by decide)

theorem stopTracks_all_true : ∀ (l : List (List Bool)) (i : Nat),
    ∀ b ∈ (stopTracks l i).getD i [], b = true := by
  intro l
  induction l with
  | nil =>
    intro i b hb
    simp [stopTracks] at hb
  | cons a t ih =>
    intro i
    cases i with
    | zero =>
      intro b hb
      simp only [stopTracks, List.getD_cons_zero, List.set_cons_zero] at hb
      rcases List.mem_map.mp hb with ⟨x, _, rfl⟩
      rfl
    | succ j =>
      intro b hb
      simp only [stopTracks, List.getD_cons_succ, List.set_cons_succ] at hb
      exact ih j b (by simpa only [stopTracks] using hb)

/-- C4 counterexample: a reachable state (toggle-off while a gallery build
was in flight, then the build resumed and installed its interval) holds
no stream, yet stopVideo is not a no-op on it: it clears the referenced
timer. -/
theorem C4_stopVideo_not_noop_counterexample :
    (runFrom ["a"] initState orphanTrace).srcObject = none ∧
    stopVideo (runFrom ["a"] initState orphanTrace) ≠
      runFrom ["a"] initState orphanTrace := by decide

/-- C4 amended: stopVideo stops all tracks of a held stream, detaches it,
clears the camera-ready flag and clears the referenced timer; when no
stream is held it still unconditionally clears the flag and the referenced
timer, so it is a no-op exactly on the no-stream states whose flag is
already down and whose referenced timer is not live (it is always safe to
call). -/
theorem C4_stopVideo_amended (s : AppState) :
    (∀ i, s.srcObject = some i →
      (stopVideo s).srcObject = none ∧
      (stopVideo s).isVideoInitialized = false ∧
      (∀ b ∈ (stopVideo s).streams.getD i [], b = true) ∧
      (∀ id, s.intervalRef = some id → id ∉ (stopVideo s).activeTimers)) ∧
    (s.srcObject = none → s.isVideoInitialized = false →
      (∀ id, s.intervalRef = some id → id ∉ s.activeTimers) →
      stopVideo s = s) := by
  constructor
  · intro i hsrc
    refine ⟨stopVideo_srcObject _, stopVideo_isVideoInitialized _, ?_, ?_⟩
    · simp only [stopVideo, hsrc]
      exact stopTracks_all_true s.streams i
    · intro id hid
      rw [stopVideo_activeTimers]
      exact not_mem_clearTimer hid
  · intro hnone hinit htm
    have h1 : clearTimer s.activeTimers s.intervalRef = s.activeTimers :=
      clearTimer_eq_self htm
    simp only [stopVideo, hnone]
    cases s
    simp_all

/-- C4 witness: the held-stream clause at a concrete holding state, and the
no-op clause at the concrete initial state. -/
theorem C4_stopVideo_amended_witness :
    (stopVideo sHeld).srcObject = none ∧ stopVideo initState = initState :=
  ⟨((C4_stopVideo_amended sHeld).1 0 rfl).1,
   (C4_stopVideo_amended initState).2 rfl rfl (fun id hid => by cases hid)⟩

theorem prefixed_ne_empty (m : String) :
    "Failed to load models: " ++ m ≠ "" := by
  intro h
  have h2 := congrArg (fun s => s.data) h
  simp [String.data_append] at h2

/-- C5 counterexample: the models flag does not stay false until a manual
retry. After the mount load fails (error recorded, flag down), the
loadModels re-run spawned by the earlier toggle succeeds and raises the
flag; no retry click occurs anywhere in the trace. -/
theorem C5_flag_without_retry_counterexample :
    (runFrom ["a"] initState (c5Trace.take 2)).areModelsLoaded = false ∧
    (runFrom ["a"] initState (c5Trace.take 2)).error.isSome = true ∧
    (runFrom ["a"] initState c5Trace).areModelsLoaded = true ∧
    (∀ e ∈ c5Trace, isRetry e = false) := by decide

/-- C5 amended: a load invocation sets the models flag exactly when its
three weight fetches all succeed, a failing load records a non-empty
"Failed to load models" error and leaves the flag unchanged, and polling
never starts or runs while the flag is false; but a failed load is not
permanent until manual retry, because the [loadModels] effect re-runs the
load whenever isVideoOn or isVideoInitialized changes and such a re-run
can succeed with no retry click. -/
theorem C5_loadModels_amended (labels : List String) :
    (∀ (s : AppState) (k : Nat) (snap : LoadSnap),
      s.pendingLoads.get? k = some snap →
      (step labels (.modelsResolved k none none none) s).areModelsLoaded = true) ∧
    (∀ (s : AppState) (k : Nat) (snap : LoadSnap) (a b c : Option String),
      s.pendingLoads.get? k = some snap →
      (a.isNone && b.isNone && c.isNone) = false →
      (step labels (.modelsResolved k a b c) s).areModelsLoaded = s.areModelsLoaded ∧
      ∃ t, (step labels (.modelsResolved k a b c) s).error = some t ∧ t ≠ "") ∧
    (∀ tr : List Ev, (runFrom labels initState tr).activeTimers ≠ [] →
      (runFrom labels initState tr).areModelsLoaded = true) := by
  refine ⟨?_, ?_, ?_⟩
  · intro s k snap hget
    simp only [step, hget]
    show (if snap.capturedIsVideoOn = true then (_ : AppState) else _).areModelsLoaded = true
    by_cases hv : snap.capturedIsVideoOn = true
    · rw [if_pos hv, startDetectionBegin_areModelsLoaded]
    · rw [if_neg hv]
  · intro s k snap a b c hget hbad
    simp only [step, hget]
    rw [if_neg (by rw [hbad]; exact Bool.false_ne_true)]
    exact ⟨rfl, ⟨_, rfl, prefixed_ne_empty _⟩⟩
  · intro tr ht
    exact (runFrom_ModelsInv labels tr initState
      ⟨fun hp => absurd hp (by decide), fun hne => absurd rfl hne⟩).2 ht

/-- C5 witness: the three amended clauses at concrete inputs (the mount
state has one pending load), including a trace that really starts a
timer. -/
theorem C5_loadModels_amended_witness :
    (step ["a"] (.modelsResolved 0 none none none) initState).areModelsLoaded = true ∧
    ((step ["a"] (.modelsResolved 0 (some "bad fetch") none none) initState).areModelsLoaded =
        initState.areModelsLoaded ∧
      ∃ t, (step ["a"] (.modelsResolved 0 (some "bad fetch") none none) initState).error =
        some t ∧ t ≠ "") ∧
    (runFrom ["a"] initState startTrace).areModelsLoaded = true :=
  ⟨(C5_loadModels_amended ["a"]).1 initState 0 ⟨false, false⟩ rfl,
   (C5_loadModels_amended ["a"]).2.1 initState 0 ⟨false, false⟩
     (some "bad fetch") none none rfl rfl,
   (C5_loadModels_amended ["a"]).2.2 startTrace (by decide)⟩

/-- C6: a per-tick failure of a live timer with the video view mounted
(so that the body runs at all) leaves every session flag, the error slot,
the stream and the timer set unchanged, logs a console message, and the
timer is still live so the next tick can fire. -/
theorem C6_tick_failure_harmless (labels : List String) (s : AppState)
    (t : Nat) (hmem : t ∈ s.activeTimers) (hvm : videoMounted s = true) :
    (step labels (.tick t true) s).isVideoOn = s.isVideoOn ∧
    (step labels (.tick t true) s).isVideoInitialized = s.isVideoInitialized ∧
    (step labels (.tick t true) s).areModelsLoaded = s.areModelsLoaded ∧
    (step labels (.tick t true) s).error = s.error ∧
    (step labels (.tick t true) s).srcObject = s.srcObject ∧
    (step labels (.tick t true) s).activeTimers = s.activeTimers ∧
    t ∈ (step labels (.tick t true) s).activeTimers ∧
    (step labels (.tick t true) s).console = s.console ++ ["Frame processing error"] := by
  simp only [step]
  rw [if_pos hmem, if_pos hvm]
  exact ⟨rfl, rfl, rfl, rfl, rfl, rfl, hmem, rfl⟩

/-- C6 witness: a failing tick at a concrete on-state with one live timer
and the video mounted. -/
theorem C6_tick_failure_harmless_witness :
    (step [] (.tick 0 true) sTimerOn).isVideoOn = sTimerOn.isVideoOn ∧
    (step [] (.tick 0 true) sTimerOn).isVideoInitialized = sTimerOn.isVideoInitialized ∧
    (step [] (.tick 0 true) sTimerOn).areModelsLoaded = sTimerOn.areModelsLoaded ∧
    (step [] (.tick 0 true) sTimerOn).error = sTimerOn.error ∧
    (step [] (.tick 0 true) sTimerOn).srcObject = sTimerOn.srcObject ∧
    (step [] (.tick 0 true) sTimerOn).activeTimers = sTimerOn.activeTimers ∧
    0 ∈ (step [] (.tick 0 true) sTimerOn).activeTimers ∧
    (step [] (.tick 0 true) sTimerOn).console = sTimerOn.console ++ ["Frame processing error"] :=
  C6_tick_failure_harmless [] sTimerOn 0 (by decide) (by decide)

/-- C7 counterexample: after the double-start on-phase, toggling off clears
only the referenced timer, so the round trip leaves the orphaned timer
live, refuting "no polling timer is active after toggle-off regardless of
how far the on-phase progressed". -/
theorem C7_roundtrip_counterexample :
    (runFrom ["a"] initState (doubleStartTrace ++ [.toggle])).isVideoOn = false ∧
    (runFrom ["a"] initState (doubleStartTrace ++ [.toggle])).srcObject = none ∧
    (runFrom ["a"] initState (doubleStartTrace ++ [.toggle])).activeTimers ≠ [] := by
  decide

/-- C7 amended: toggling off from any on-state detaches the stream and
kills all timers provided every live timer is the referenced one, i.e.
at most one startFaceDetection invocation installed a timer during the
on-phase. -/
theorem C7_roundtrip_amended (labels : List String) (s : AppState)
    (hon : s.isVideoOn = true)
    (hall : ∀ t ∈ s.activeTimers, s.intervalRef = some t) :
    (step labels .toggle s).isVideoOn = false ∧
    (step labels .toggle s).srcObject = none ∧
    (step labels .toggle s).activeTimers = [] := by
  simp only [step]
  rw [if_pos hon]
  refine ⟨?_, ?_, ?_⟩
  · simp only [spawnLoad_isVideoOn, stopVideo_isVideoOn]
  · simp only [spawnLoad_srcObject, stopVideo_srcObject]
  · simp only [spawnLoad_activeTimers, stopVideo_activeTimers,
      stopVideo_intervalRef]
    rw [clearTimer_eq_nil hall]
    cases hr : s.intervalRef <;> simp [clearTimer]

/-- C7 witness: toggle-off from a concrete on-state with one referenced
timer releases everything. -/
theorem C7_roundtrip_amended_witness :
    (step [] .toggle sTimerOn).isVideoOn = false ∧
    (step [] .toggle sTimerOn).srcObject = none ∧
    (step [] .toggle sTimerOn).activeTimers = [] :=
  C7_roundtrip_amended [] sTimerOn rfl (by decide)

/-- C8 counterexample: in the second variant a single failing reference
image rejects the whole gallery build instead of being skipped with a
warning, and in the primary variant an image in which detection finds no
face is skipped silently, without a warning. -/
theorem C8_gallery_counterexample :
    getLabeledFaceDescriptionsB ["alice", "bob"] fdBad = .error "404 fetch failed" ∧
    (processLabel fdNoFace 1 "alice").descriptors = [] ∧
    (processLabel fdNoFace 1 "alice").warnings = [] :=
  ⟨rfl, by decide, by decide⟩

/-- C8 amended: in the primary variant, a thrown per-image fetch/detection
failure is skipped with a warning and does not abort the build, a no-face
detection is skipped silently, and no label with zero successful
descriptors is included; in the second variant any per-image failure
rejects the whole gallery build. -/
theorem C8_gallery_amended (labels : List String)
    (fd : String → Nat → Outcome) :
    (∀ label ds, (label, ds) ∈ getLabeledFaceDescriptions labels fd → ds ≠ []) ∧
    (∀ label i m, i < labels.length → fd label i = .err m →
      warnMsg i label m ∈ (processLabel fd labels.length label).warnings) ∧
    (∀ l i, l ∈ labels → i < labels.length → (∀ d, fd l i ≠ .ok d) →
      ∃ m, getLabeledFaceDescriptionsB labels fd = .error m) :=
  ⟨fun _ _ h => gallery_no_empty_label fd h,
   fun label i m hi he => warning_of_err fd label hi he,
   fun l i hl hi hbad => galleryB_aborts fd hl hi hbad⟩

/-- C8 witness: the three clauses at concrete labels and oracles. -/
theorem C8_gallery_amended_witness :
    ([1] : List Nat) ≠ [] ∧
    warnMsg 1 "alice" "404 fetch failed" ∈ (processLabel fdBad 2 "alice").warnings ∧
    ∃ m, getLabeledFaceDescriptionsB ["alice", "bob"] fdBad = .error m :=
  ⟨(C8_gallery_amended ["alice", "bob"] fdBad).1 "alice" [1] (by decide),
   (C8_gallery_amended ["alice", "bob"] fdBad).2.1 "alice" 1 "404 fetch failed"
     (by decide) (by decide),
   (C8_gallery_amended ["alice", "bob"] fdBad).2.2 "alice" 1 (by decide) (by decide)
     (fun d h => by simp [fdBad] at h)⟩

/-- C9: for every label in the label list, the primary gallery builder
iterates the reference images with the total label count as the bound,
attempting exactly the indices 0 .. labels.length - 1 for that label; the
builder is definitionally the per-label loop at that bound. -/
theorem C9_iteration_bound (labels : List String)
    (fd : String → Nat → Outcome) (label : String) (hmem : label ∈ labels) :
    (processLabel fd labels.length label).attempts = List.range labels.length ∧
    (processLabel fd labels.length label).attempts.length = labels.length ∧
    getLabeledFaceDescriptions labels fd = labels.filterMap (fun l =>
      if (processLabel fd labels.length l).descriptors.length > 0 then
        some (l, (processLabel fd labels.length l).descriptors)
      else none) := by
  refine ⟨processLabel_attempts fd label labels.length, ?_, rfl⟩
  rw [processLabel_attempts]
  exact List.length_range labels.length

/-- C9 witness: with two labels, each label's loop attempts exactly images
0 and 1. -/
theorem C9_iteration_bound_witness :
    (processLabel fdBad (["alice", "bob"] : List String).length "alice").attempts =
      List.range (["alice", "bob"] : List String).length ∧
    (processLabel fdBad (["alice", "bob"] : List String).length "alice").attempts.length =
      (["alice", "bob"] : List String).length ∧
    getLabeledFaceDescriptions ["alice", "bob"] fdBad = (["alice", "bob"] : List String).filterMap (fun l =>
      if (processLabel fdBad (["alice", "bob"] : List String).length l).descriptors.length > 0 then
        some (l, (processLabel fdBad (["alice", "bob"] : List String).length l).descriptors)
      else none) :=
  C9_iteration_bound ["alice", "bob"] fdBad "alice" (by decide)

/-- C10: when a gallery build resumes with an empty gallery, no timer is
installed, the interval reference and both readiness flags are unchanged,
and the user-visible error slot holds a non-empty message. -/
theorem C10_empty_gallery_no_timer (labels : List String)
    (fd : String → Nat → Outcome) (s : AppState)
    (hpend : 0 < s.pendingGallery)
    (hempty : getLabeledFaceDescriptions labels fd = []) :
    (step labels (.galleryResolved fd) s).activeTimers = s.activeTimers ∧
    (step labels (.galleryResolved fd) s).intervalRef = s.intervalRef ∧
    (step labels (.galleryResolved fd) s).isVideoInitialized = s.isVideoInitialized ∧
    (step labels (.galleryResolved fd) s).areModelsLoaded = s.areModelsLoaded ∧
    ∃ t, (step labels (.galleryResolved fd) s).error = some t ∧ t ≠ "" := by
  simp only [step]
  rw [if_pos hpend, if_pos (by rw [hempty]; rfl)]
  exact ⟨rfl, rfl, rfl, rfl,
    ⟨"Face detection failed: No face descriptors found", rfl, by decide⟩⟩

/-- C10 witness: an all-no-face oracle yields an empty gallery, and the
resumption from a concrete pending state installs no timer and records the
error. -/
theorem C10_empty_gallery_no_timer_witness :
    (step ["a"] (.galleryResolved fdNoFace) sGalleryPending).activeTimers = sGalleryPending.activeTimers ∧
    (step ["a"] (.galleryResolved fdNoFace) sGalleryPending).intervalRef = sGalleryPending.intervalRef ∧
    (step ["a"] (.galleryResolved fdNoFace) sGalleryPending).isVideoInitialized = sGalleryPending.isVideoInitialized ∧
    (step ["a"] (.galleryResolved fdNoFace) sGalleryPending).areModelsLoaded = sGalleryPending.areModelsLoaded ∧
    ∃ t, (step ["a"] (.galleryResolved fdNoFace) sGalleryPending).error = some t ∧ t ≠ "" :=
  C10_empty_gallery_no_timer ["a"] fdNoFace sGalleryPending (by decide) (by decide)
